import Mathlib

/-!
Formal model of the invoice-processing core of `process_invoices.py` and of the
sheet consistency checker `validate_google_sheet.py`.

Monetary amounts are modelled as exact rationals (`ℚ`); values that can be the
Python `None` are modelled with `Option`.  Python `float(...)` string parsing
is modelled for decimal literals built from digits, `.` and `-` — the only
characters the cleaned inputs of `_safe_money` and its siblings can contain;
exponent forms, `inf`/`nan` and underscore separators are outside the model.
Discrepancy messages are modelled as structured values carrying the same data
that the Python code interpolates into its message strings.
-/

/-- Python truthiness-based `x or y` for a float `x` (`0` is falsy). -/
def pyOrV (a b : ℚ) : ℚ := if a = 0 then b else a

/-- Python `x or y` where `x` is a float-or-`None` value (`None` and `0` are falsy). -/
def pyOrQ (a : Option ℚ) (b : ℚ) : ℚ :=
  match a with
  | none => b
  | some x => if x = 0 then b else x

/-- Python `abs` on a rational. -/
def pyAbs (q : ℚ) : ℚ := if q < 0 then -q else q

theorem pyAbs_eq_abs (q : ℚ) : pyAbs q = |q| := by
  unfold pyAbs
  split
  next h => rw [abs_of_neg h]
  next h => rw [abs_of_nonneg (not_lt.mp h)]

theorem pyOrQ_none (b : ℚ) : pyOrQ none b = b := rfl

theorem pyOrQ_some_zero (b : ℚ) : pyOrQ (some 0) b = b := by simp [pyOrQ]

theorem pyOrQ_getD_zero (a : Option ℚ) : pyOrQ a 0 = a.getD 0 := by
  unfold pyOrQ
  match a with
  | none => rfl
  | some x =>
    simp only [Option.getD_some]
    split
    next h => rw [h]
    next h => rfl

/-- Numeric value of a decimal digit character. -/
def digitVal (c : Char) : ℕ := c.toNat - 48

/-- Value of a digit string read left to right. -/
def digitsToNat (l : List Char) : ℕ := l.foldl (fun acc c => acc * 10 + digitVal c) 0

theorem digitVal_0 : digitVal '0' = 0 := by decide

theorem digitVal_1 : digitVal '1' = 1 := by decide

theorem digitVal_2 : digitVal '2' = 2 := by decide

theorem digitVal_3 : digitVal '3' = 3 := by decide

theorem digitVal_4 : digitVal '4' = 4 := by decide

theorem digitVal_5 : digitVal '5' = 5 := by decide

theorem digitVal_6 : digitVal '6' = 6 := by decide

theorem digitVal_9 : digitVal '9' = 9 := by decide

/-- A sign-free decimal literal Python `float` accepts: only digits and at most
one decimal point, with at least one digit (`""`, `"."`, `".."`, `"1.2.3"` and
anything with other characters all raise `ValueError`). -/
def goodBody (l : List Char) : Bool :=
  l.all (fun c => c.isDigit || c == '.')
  && ((l.filter (fun c => c == '.')).length == 0
      || (l.filter (fun c => c == '.')).length == 1)
  && l.any (fun c => c.isDigit)

/-- Value of a sign-free decimal literal, `none` when Python `float` raises. -/
def parseUnsigned (l : List Char) : Option ℚ :=
  if goodBody l then
    some ((digitsToNat (l.takeWhile (fun c => c != '.')) : ℚ)
      + (digitsToNat ((l.dropWhile (fun c => c != '.')).drop 1) : ℚ)
        / (10 : ℚ) ^ ((l.dropWhile (fun c => c != '.')).drop 1).length)
  else none

/-- Python `float(s)` on a string of digits, `.` and `-`: an optional leading
minus followed by a decimal literal; a minus anywhere else raises. -/
def pyFloatQ : List Char → Option ℚ
  | [] => parseUnsigned []
  | c :: rest =>
    if c = '-' then (parseUnsigned rest).map (fun q => -q) else parseUnsigned (c :: rest)

/-- Whether `pyFloatQ` succeeds, stated without computing the value. -/
def goodNum : List Char → Bool
  | [] => goodBody []
  | c :: rest => if c = '-' then goodBody rest else goodBody (c :: rest)

theorem parseUnsigned_isSome (l : List Char) : (parseUnsigned l).isSome = goodBody l := by
  unfold parseUnsigned
  split
  next h => simp [h]
  next h => simp [h]

theorem pyFloatQ_isSome (l : List Char) : (pyFloatQ l).isSome = goodNum l := by
  rcases l with _ | ⟨c, rest⟩
  · exact parseUnsigned_isSome []
  · by_cases hc : c = '-'
    · simp only [pyFloatQ, goodNum, if_pos hc]
      rw [← parseUnsigned_isSome rest]
      cases parseUnsigned rest <;> rfl
    · simp only [pyFloatQ, goodNum, if_neg hc]
      exact parseUnsigned_isSome (c :: rest)

/-- The cleaning step shared by `_safe_money`, `_entity_child_float` and the
text fallback of money resolution: `s.replace(",", ".")` followed by keeping
only characters `c` with `c.isdigit() or c in ".-"`. -/
def cleanChars (l : List Char) : List Char :=
  (l.map (fun c => if c == ',' then '.' else c)).filter
    (fun c => c.isDigit || c == '.' || c == '-')

/-- Core of `_safe_money` on the character list of the input string. -/
def safe_money_chars (l : List Char) : Option ℚ := pyFloatQ (cleanChars l)

/-- Model of `_safe_money` (process_invoices.py, lines 401-406). -/
def _safe_money (s : String) : Option ℚ := safe_money_chars s.data

/-- Model of `as_float` (validate_google_sheet.py, lines 23-27):
`float(str(x).replace(" ", "").replace(",", "."))` with `None` on failure. -/
def as_float (s : String) : Option ℚ :=
  pyFloatQ ((s.data.filter (fun c => c != ' ')).map (fun c => if c = ',' then '.' else c))

/-- One line-item record as consumed by `validate_totals`; `i.get("net", 0) or 0`
collapses a missing key, `None` and `0` alike to `0`, so `none` models both a
missing key and a `None` value. -/
structure ItemRec where
  net : Option ℚ
  vat : Option ℚ
  gross : Option ℚ
deriving DecidableEq

/-- The minimal mapping shape `validate_totals` reads. -/
structure TotalsData where
  total_net : Option ℚ
  total_vat : Option ℚ
  total_gross : Option ℚ
  line_items : List ItemRec
deriving DecidableEq

/-- One discrepancy message `"Mismatch <dim>: <computed> vs <declared>"`,
modelled with the interpolated values kept structured. -/
inductive Mismatch where
  | net (computed declared : ℚ)
  | vat (computed declared : ℚ)
  | gross (computed declared : ℚ)
deriving DecidableEq

/-- Sum of `float(i.get("net", 0) or 0)` over the line items. -/
def netSum (d : TotalsData) : ℚ := (d.line_items.map (fun i => i.net.getD 0)).sum

/-- Sum of `float(i.get("vat", 0) or 0)` over the line items. -/
def vatSum (d : TotalsData) : ℚ := (d.line_items.map (fun i => i.vat.getD 0)).sum

/-- Sum of `float(i.get("gross", 0) or 0)` over the line items. -/
def grossSum (d : TotalsData) : ℚ := (d.line_items.map (fun i => i.gross.getD 0)).sum

/-- `float(data.get("total_net", 0) or 0)`. -/
def declaredNet (d : TotalsData) : ℚ := d.total_net.getD 0

/-- `float(data.get("total_vat", 0) or 0)`. -/
def declaredVat (d : TotalsData) : ℚ := d.total_vat.getD 0

/-- `float(data.get("total_gross", 0) or 0)`. -/
def declaredGross (d : TotalsData) : ℚ := d.total_gross.getD 0

/-- Model of `validate_totals` (process_invoices.py, lines 92-110); the Python
default for `tol` is `0.01`. -/
def validate_totals (d : TotalsData) (tol : ℚ) : Bool × List Mismatch :=
  let errors : List Mismatch :=
    (if tol < pyAbs (netSum d - declaredNet d) then
      [Mismatch.net (netSum d) (declaredNet d)] else [])
    ++ (if tol < pyAbs (vatSum d - declaredVat d) then
      [Mismatch.vat (vatSum d) (declaredVat d)] else [])
    ++ (if tol < pyAbs (grossSum d - declaredGross d) then
      [Mismatch.gross (grossSum d) (declaredGross d)] else [])
  (errors.length == 0, errors)

/-- Claim C1: `validate_totals` sums net, vat and gross independently over the
line items (a missing per-item field counts as `0`), compares each sum to the
corresponding declared total by absolute difference against the tolerance,
emits exactly one discrepancy message per dimension whose difference exceeds
the tolerance — so a record whose net matches but whose vat and gross mismatch
yields exactly two messages — and passes iff all three dimensions are within
tolerance. -/
theorem validate_totals_spec (d : TotalsData) (tol : ℚ) :
    ((validate_totals d tol).1 = true ↔
      |netSum d - declaredNet d| ≤ tol ∧ |vatSum d - declaredVat d| ≤ tol ∧
        |grossSum d - declaredGross d| ≤ tol)
    ∧ (validate_totals d tol).2.length =
        ((if tol < |netSum d - declaredNet d| then 1 else 0)
          + (if tol < |vatSum d - declaredVat d| then 1 else 0)
          + (if tol < |grossSum d - declaredGross d| then 1 else 0))
    ∧ (|netSum d - declaredNet d| ≤ tol → tol < |vatSum d - declaredVat d| →
        tol < |grossSum d - declaredGross d| →
        (validate_totals d tol).2.length = 2 ∧ (validate_totals d tol).1 = false) := by
  unfold validate_totals
  simp only [pyAbs_eq_abs]
  split_ifs with h1 h2 h3 <;> simp_all [← not_lt]

/-- Record with net matching and both vat and gross mismatching. -/
def exampleRecord : TotalsData :=
  ⟨some 100, some 23, some 123, [⟨some 100, some 20, some 120⟩]⟩

/-- Claim C1 witness: on a concrete record whose net matches but whose vat and
gross are each off by `3`, validation fails with exactly two messages. -/
theorem validate_totals_spec_witness :
    (validate_totals exampleRecord (1/100)).2.length = 2
    ∧ (validate_totals exampleRecord (1/100)).1 = false :=
  (validate_totals_spec exampleRecord (1/100)).2.2
    (by norm_num [netSum, declaredNet, exampleRecord])
    (by norm_num [vatSum, declaredVat, exampleRecord])
    (by norm_num [grossSum, declaredGross, exampleRecord])

/-- Python banker's rounding `round(x)` of a rational to an integer. -/
def roundHalfEven (x : ℚ) : ℤ :=
  if x - ⌊x⌋ < 1/2 then ⌊x⌋
  else if 1/2 < x - ⌊x⌋ then ⌊x⌋ + 1
  else if ⌊x⌋ % 2 = 0 then ⌊x⌋ else ⌊x⌋ + 1

/-- Python `round(x, 2)`. -/
def round2 (x : ℚ) : ℚ := (roundHalfEven (x * 100) : ℚ) / 100

theorem round2_zero : round2 0 = 0 := by norm_num [round2, roundHalfEven]

/-- The fixed candidate VAT rates, in the order the source checks them. -/
def vatCandidates : List ℚ := [23, 8, 5, 0]

/-- Model of `_guess_vat_rate` (process_invoices.py, lines 379-390).  The
`vat` argument is `Option` because the table strategy can pass `None`. -/
def _guess_vat_rate (net : ℚ) (vat : Option ℚ) : ℚ :=
  match vat with
  | none => 0
  | some v =>
    if net = 0 then 0
    else if pyAbs (v / net * 100 - 23) < 1 then 23
    else if pyAbs (v / net * 100 - 8) < 1 then 8
    else if pyAbs (v / net * 100 - 5) < 1 then 5
    else if pyAbs (v / net * 100 - 0) < 1 then 0
    else round2 (v / net * 100)

/-- Claim C6: VAT-rate inference computes `raw = (vat / net) * 100` when net is
nonzero and vat is present, returns the candidate of `{23, 8, 5, 0}` that raw
is within `1.0` of (candidates are at least `3` apart, so at most one can
match), otherwise returns raw rounded to 2 decimal places, and returns `0`
when net is zero or vat is absent; `infer_rate 100 22.6 = 23` and
`infer_rate 100 15.0 = 15.0`. -/
theorem guess_vat_rate_spec (net : ℚ) (vat : Option ℚ) :
    ((net = 0 ∨ vat = none) → _guess_vat_rate net vat = 0)
    ∧ (∀ v, vat = some v → net ≠ 0 →
        (∀ c ∈ vatCandidates, |v / net * 100 - c| < 1 → _guess_vat_rate net vat = c)
        ∧ ((∀ c ∈ vatCandidates, 1 ≤ |v / net * 100 - c|) →
            _guess_vat_rate net vat = round2 (v / net * 100)))
    ∧ _guess_vat_rate 100 (some (113/5)) = 23
    ∧ _guess_vat_rate 100 (some 15) = 15 := by
  refine ⟨?_, ?_, ?_, ?_⟩
  · rintro (h | h)
    · subst h
      match vat with
      | none => rfl
      | some v => simp [_guess_vat_rate]
    · subst h
      rfl
  · intro v hv hnet
    subst hv
    unfold _guess_vat_rate
    simp only [pyAbs_eq_abs, if_neg hnet]
    constructor
    · intro c hc hlt
      fin_cases hc
      · rw [if_pos hlt]
      · rw [abs_lt] at hlt
        rw [if_neg (by rw [abs_lt]; push_neg; intro h; exfalso; linarith [hlt.1, hlt.2, h]),
          if_pos (by rw [abs_lt]; constructor <;> linarith [hlt.1, hlt.2])]
      · rw [abs_lt] at hlt
        rw [if_neg (by rw [abs_lt]; push_neg; intro h; exfalso; linarith [hlt.1, hlt.2, h]),
          if_neg (by rw [abs_lt]; push_neg; intro h; exfalso; linarith [hlt.1, hlt.2, h]),
          if_pos (by rw [abs_lt]; constructor <;> linarith [hlt.1, hlt.2])]
      · rw [abs_lt] at hlt
        rw [if_neg (by rw [abs_lt]; push_neg; intro h; exfalso; linarith [hlt.1, hlt.2, h]),
          if_neg (by rw [abs_lt]; push_neg; intro h; exfalso; linarith [hlt.1, hlt.2, h]),
          if_neg (by rw [abs_lt]; push_neg; intro h; exfalso; linarith [hlt.1, hlt.2, h]),
          if_pos (by rw [abs_lt]; constructor <;> linarith [hlt.1, hlt.2])]
    · intro hall
      have h23 := hall 23 (by simp [vatCandidates])
      have h8 := hall 8 (by simp [vatCandidates])
      have h5 := hall 5 (by simp [vatCandidates])
      have h0 := hall 0 (by simp [vatCandidates])
      rw [if_neg (not_lt.mpr h23), if_neg (not_lt.mpr h8), if_neg (not_lt.mpr h5),
        if_neg (not_lt.mpr h0)]
  · norm_num [_guess_vat_rate, pyAbs]
  · norm_num [_guess_vat_rate, pyAbs, round2, roundHalfEven]

/-- Claim C6 witness: the spec theorem applied at `net = 100`, `vat = 22.6`
(snaps to `23`) and at `net = 100`, `vat = 15` (returned rounded, unsnapped). -/
theorem guess_vat_rate_spec_witness :
    _guess_vat_rate 100 (some (113/5)) = 23 ∧ _guess_vat_rate 100 (some 15) = 15 := by
  constructor
  · exact ((guess_vat_rate_spec 100 (some (113/5))).2.1 (113/5) rfl
      (by norm_num)).1 23 (by simp [vatCandidates]) (by rw [abs_lt]; constructor <;> norm_num)
  · have h := ((guess_vat_rate_spec 100 (some 15)).2.1 15 rfl (by norm_num)).2
      (by intro c hc; fin_cases hc <;> norm_num)
    rw [h]
    norm_num [round2, roundHalfEven]

/-- The `LineItem` dataclass.  The Python fields are dynamically typed; every
construction site modelled with this structure stores rationals. -/
structure LineItem where
  description : String
  quantity : ℚ
  unit_price : ℚ
  net : ℚ
  vat_rate : ℚ
  vat : ℚ
  gross : ℚ
deriving DecidableEq

/-- Model of the synthesis fallback (process_invoices.py, lines 205-209): the
single placeholder item built when both extraction strategies produced no line
items. -/
def fallbackItems (total_net total_vat total_gross : ℚ) : List LineItem :=
  [⟨"(no-items)", 1, total_gross, pyOrV total_net total_gross,
    _guess_vat_rate total_net (some total_vat), total_vat, total_gross⟩]

/-- Claim C2 counterexample: with `total_net = 0`, `total_vat = 0` and
`total_gross = 10` the placeholder's net is `10`, not the invoice-level
`total_net = 0` — Python `net=total_net or total_gross` falls through on `0`. -/
theorem fallback_item_counterexample :
    (fallbackItems 0 0 10).map LineItem.net = [10] ∧ (10 : ℚ) ≠ 0 := by
  refine ⟨?_, by norm_num⟩
  simp [fallbackItems, pyOrV]

/-- Claim C2 (amended): the synthesis fallback constructs exactly one
placeholder `LineItem` with quantity `1`, vat `total_vat`, gross `total_gross`
and unit price `total_gross`; its net is `total_net` when `total_net` is
nonzero and `total_gross` when `total_net = 0`. -/
theorem fallback_item_amended (tn tv tg : ℚ) :
    fallbackItems tn tv tg =
      [⟨"(no-items)", 1, tg, if tn = 0 then tg else tn,
        _guess_vat_rate tn (some tv), tv, tg⟩] := rfl

/-- Model of the totals resolution of `parse_invoice_docai`
(process_invoices.py, lines 197-201 and 217-219): the three money-resolver
results are combined with Python `or` fallbacks and rounded to 2 decimal
places.  The extracted line items play no part. -/
def docaiTotals (netR vatR grossR : Option ℚ) : ℚ × ℚ × ℚ :=
  let total_net := pyOrQ netR 0
  let total_vat := pyOrQ vatR 0
  let total_gross :=
    pyOrQ grossR (if total_net ≠ 0 ∨ total_vat ≠ 0 then total_net + total_vat else 0)
  (round2 total_net, round2 total_vat, round2 total_gross)

/-- Modelled from the claim's words (not the source): each total taken from
the header-level entity when one resolves, otherwise approximated from the
extracted line items as the gross-minus-vat / vat / gross sums. -/
def specTotals (netR vatR grossR : Option ℚ) (items : List LineItem) : ℚ × ℚ × ℚ :=
  (netR.getD ((items.map (fun i => i.gross - i.vat)).sum),
   vatR.getD ((items.map (fun i => i.vat)).sum),
   grossR.getD ((items.map (fun i => i.gross)).sum))

/-- A line item with gross `123` and vat `23`, as extracted data. -/
def itemG123 : LineItem := ⟨"x", 1, 100, 100, 23, 23, 123⟩

/-- Claim C4 counterexample: with the net-total entity unresolved and an
extracted line item with gross `123` and vat `23`, the claim predicts
`total_net = 123 - 23 = 100`, but the code leaves `total_net = 0` — absent
totals are defaulted, never approximated from line items. -/
theorem docai_totals_counterexample :
    (docaiTotals none (some 23) (some 123)).1 = 0
    ∧ (specTotals none (some 23) (some 123) [itemG123]).1 = 100
    ∧ (0 : ℚ) ≠ 100 := by
  refine ⟨?_, ?_, by norm_num⟩
  · norm_num [docaiTotals, pyOrQ, round2, roundHalfEven]
  · norm_num [specTotals, itemG123]

/-- Claim C4 (amended): each invoice-level total is taken from the explicit
header-level entity when it resolves to a nonzero amount; an absent (or zero)
net or vat total becomes `0`, and an absent (or zero) gross total becomes
`total_net + total_vat` when either of those is nonzero and `0` otherwise; all
three are rounded to two decimals; the extracted line items are never
consulted. -/
theorem docai_totals_spec (netR vatR grossR : Option ℚ) :
    ((netR = none ∨ netR = some 0) → (docaiTotals netR vatR grossR).1 = 0)
    ∧ (∀ x, netR = some x → x ≠ 0 → (docaiTotals netR vatR grossR).1 = round2 x)
    ∧ ((vatR = none ∨ vatR = some 0) → (docaiTotals netR vatR grossR).2.1 = 0)
    ∧ (∀ x, vatR = some x → x ≠ 0 → (docaiTotals netR vatR grossR).2.1 = round2 x)
    ∧ (∀ g, grossR = some g → g ≠ 0 → (docaiTotals netR vatR grossR).2.2 = round2 g)
    ∧ ((grossR = none ∨ grossR = some 0) →
        (docaiTotals netR vatR grossR).2.2 =
          (if pyOrQ netR 0 ≠ 0 ∨ pyOrQ vatR 0 ≠ 0
           then round2 (pyOrQ netR 0 + pyOrQ vatR 0) else 0)) := by
  refine ⟨?_, ?_, ?_, ?_, ?_, ?_⟩
  · rintro (h | h) <;> subst h <;> simp [docaiTotals, pyOrQ, round2_zero]
  · intro x hx hne
    subst hx
    simp [docaiTotals, pyOrQ, if_neg hne]
  · rintro (h | h) <;> subst h <;> simp [docaiTotals, pyOrQ, round2_zero]
  · intro x hx hne
    subst hx
    simp [docaiTotals, pyOrQ, if_neg hne]
  · intro g hg hne
    subst hg
    simp [docaiTotals, pyOrQ, if_neg hne]
  · rintro (h | h) <;> subst h <;>
      · simp only [docaiTotals, pyOrQ_none, pyOrQ_some_zero]
        by_cases hP : pyOrQ netR 0 ≠ 0 ∨ pyOrQ vatR 0 ≠ 0
        · rw [if_pos hP, if_pos hP]
        · rw [if_neg hP, if_neg hP, round2_zero]

/-- Claim C4 witness: the amended theorem applied at a concrete resolution
(net absent, vat `23`, gross `123`). -/
theorem docai_totals_spec_witness :
    (docaiTotals none (some 23) (some 123)).1 = 0
    ∧ (docaiTotals none (some 23) (some 123)).2.1 = round2 23
    ∧ (docaiTotals none (some 23) (some 123)).2.2 = round2 123 :=
  ⟨(docai_totals_spec none (some 23) (some 123)).1 (Or.inl rfl),
   (docai_totals_spec none (some 23) (some 123)).2.2.2.1 23 rfl (by norm_num),
   (docai_totals_spec none (some 23) (some 123)).2.2.2.2.1 123 rfl (by norm_num)⟩

/-- A structured money value with integer units and a nano fraction. -/
structure MoneyValue where
  units : ℤ
  nanos : ℤ
deriving DecidableEq

/-- The rational amount of a structured money value:
`(mv.units or 0) + (mv.nanos or 0) / 1e9`. -/
def moneyQ (mv : MoneyValue) : ℚ := (mv.units : ℚ) + (mv.nanos : ℚ) / 1000000000

/-- A `normalized_value` message: text and an optional structured money value.
The Python truthiness test
`ent.normalized_value and ent.normalized_value.money_value` holds exactly when
the money value is set. -/
structure NormalizedValue where
  text : String
  money_value : Option MoneyValue
deriving DecidableEq

/-- A child property entity (the source reads one level of nesting). -/
structure EntityCore where
  type_ : String
  mention_text : String
  normalized_value : NormalizedValue
deriving DecidableEq

/-- A top-level extraction entity. -/
structure Entity where
  type_ : String
  mention_text : String
  normalized_value : NormalizedValue
  properties : List EntityCore
deriving DecidableEq

/-- Python `s.lower()` (the field tags only contain ASCII). -/
def lowerStr (s : String) : String := ⟨s.data.map Char.toLower⟩

/-- Case-insensitive membership of a type tag in the alias list:
`(ent.type_ or "").lower() in (fn.lower() for fn in field_names)`. -/
def typeMatches (names : List String) (t : String) : Bool :=
  (names.map lowerStr).contains (lowerStr t)

/-- Python `str.strip()`: whitespace removed from both ends. -/
def pyStrip (s : String) : String :=
  ⟨((s.data.dropWhile Char.isWhitespace).reverse.dropWhile Char.isWhitespace).reverse⟩

/-- Python `a or b` on two strings (empty is falsy). -/
def firstNonempty (a b : String) : String := if a = "" then b else a

/-- Model of `_docai_find_first_money` (process_invoices.py, lines 267-285):
the first matching entity's structured money value, else its cleaned mention
text, else on to the next matching entity; `none` when no matching entity
yields a value. -/
def _docai_find_first_money : List Entity → List String → Option ℚ
  | [], _ => none
  | e :: rest, names =>
    if typeMatches names e.type_ then
      match e.normalized_value.money_value with
      | some mv => some (moneyQ mv)
      | none =>
        match safe_money_chars e.mention_text.data with
        | some q => some q
        | none => _docai_find_first_money rest names
    else _docai_find_first_money rest names

/-- Claim C5: on an entity whose type tag matches an alias case-insensitively,
money resolution prefers the structured normalized money value over the raw
mention text, and when neither the structured value nor the text parses it
continues with the remaining entities in document order instead of returning
absent. -/
theorem find_first_money_spec (e : Entity) (rest : List Entity) (names : List String)
    (hm : typeMatches names e.type_ = true) :
    (∀ mv, e.normalized_value.money_value = some mv →
      _docai_find_first_money (e :: rest) names = some (moneyQ mv))
    ∧ (e.normalized_value.money_value = none →
        safe_money_chars e.mention_text.data = none →
        _docai_find_first_money (e :: rest) names = _docai_find_first_money rest names) := by
  constructor
  · intro mv hmv
    simp [_docai_find_first_money, hm, hmv]
  · intro h1 h2
    simp [_docai_find_first_money, hm, h1, h2]

/-- An entity carrying both the raw text amount `"99"` and the structured
value units = 100, nanos = 0. -/
def entBoth : Entity := ⟨"Total_Amount", "99", ⟨"", some ⟨100, 0⟩⟩, []⟩

/-- A matching entity on which neither a structured value nor the text parses. -/
def entBad : Entity := ⟨"total_amount", "n/a", ⟨"", none⟩, []⟩

/-- Claim C5 witness: `entBoth` resolves to `100.0`, not `99.0`, and a
preceding matching-but-unparsable entity is skipped, not fatal. -/
theorem find_first_money_spec_witness :
    _docai_find_first_money [entBoth] ["total_amount"] = some 100
    ∧ _docai_find_first_money [entBad, entBoth] ["total_amount"] =
        _docai_find_first_money [entBoth] ["total_amount"]
    ∧ some (100 : ℚ) ≠ some (99 : ℚ) := by
  have h1 := (find_first_money_spec entBoth [] ["total_amount"] (by decide)).1 ⟨100, 0⟩ rfl
  have h2 := (find_first_money_spec entBad [entBoth] ["total_amount"] (by decide)).2 rfl
    (by decide)
  refine ⟨?_, h2, by norm_num⟩
  rw [h1]
  norm_num [moneyQ]

/-- Model of `_entity_child_text` (process_invoices.py, lines 344-350) on the
property list: first matching child whose stripped text is nonempty. -/
def childTextAux : List EntityCore → List String → Option String
  | [], _ => none
  | p :: rest, names =>
    if typeMatches names p.type_ then
      if pyStrip (firstNonempty p.mention_text p.normalized_value.text) = "" then
        childTextAux rest names
      else some (pyStrip (firstNonempty p.mention_text p.normalized_value.text))
    else childTextAux rest names

/-- Model of `_entity_child_text`. -/
def _entity_child_text (ent : Entity) (names : List String) : Option String :=
  childTextAux ent.properties names

/-- Model of `_entity_child_float` (process_invoices.py, lines 352-360). -/
def _entity_child_float (ent : Entity) (names : List String) : Option ℚ :=
  match _entity_child_text ent names with
  | none => none
  | some t => safe_money_chars t.data

/-- Model of `_entity_child_money` (process_invoices.py, lines 362-377) on the
property list: like money resolution, but over the child properties and with
no `normalized_value.text` fallback. -/
def childMoneyAux : List EntityCore → List String → Option ℚ
  | [], _ => none
  | p :: rest, names =>
    if typeMatches names p.type_ then
      match p.normalized_value.money_value with
      | some mv => some (moneyQ mv)
      | none =>
        match safe_money_chars p.mention_text.data with
        | some q => some q
        | none => childMoneyAux rest names
    else childMoneyAux rest names

/-- Model of `_entity_child_money`. -/
def _entity_child_money (ent : Entity) (names : List String) : Option ℚ :=
  childMoneyAux ent.properties names

/-- An entity whose matching child carries units = 20, nanos = 500000000. -/
def entHalf : Entity :=
  ⟨"line_item", "", ⟨"", none⟩, [⟨"amount", "", ⟨"", some ⟨20, 500000000⟩⟩⟩]⟩

/-- Claim C7: the Money Normalizer replaces comma with point and strips every
character that is not a digit, a decimal point or a minus sign before parsing
— inserting any stripped character anywhere leaves the result unchanged, and
a comma behaves exactly like a point — so `"1 234,56"` normalizes to
`1234.56`; on a structured money value it returns `units + nanos / 1e9`, so
units = 20, nanos = 500000000 yields `20.5`. -/
theorem safe_money_clean_spec :
    (∀ (l₁ l₂ : List Char) (c : Char),
      ¬(c.isDigit = true ∨ c = '.' ∨ c = '-' ∨ c = ',') →
      safe_money_chars (l₁ ++ c :: l₂) = safe_money_chars (l₁ ++ l₂))
    ∧ (∀ l₁ l₂ : List Char,
        safe_money_chars (l₁ ++ ',' :: l₂) = safe_money_chars (l₁ ++ '.' :: l₂))
    ∧ _safe_money "1 234,56" = some (123456/100)
    ∧ _entity_child_money entHalf ["amount", "total_amount"] = some (41/2) := by
  refine ⟨?_, ?_, ?_, ?_⟩
  · intro l₁ l₂ c h
    push_neg at h
    obtain ⟨h1, h2, h3, h4⟩ := h
    unfold safe_money_chars cleanChars
    congr 1
    simp [List.map_append, List.filter_append, h1, h2, h3, h4]
  · intro l₁ l₂
    unfold safe_money_chars cleanChars
    congr 1
    simp [List.map_append, List.filter_append]
  · norm_num +decide [_safe_money, safe_money_chars, cleanChars, pyFloatQ, parseUnsigned,
      goodBody, digitsToNat, digitVal_1, digitVal_2, digitVal_3, digitVal_4, digitVal_5,
      digitVal_6]
  · have hm : typeMatches ["amount", "total_amount"] "amount" = true := by decide
    simp only [_entity_child_money, entHalf, childMoneyAux, hm, if_true]
    norm_num [moneyQ]

/-- Claim C7 witness: inserting a stripped character (`'z'`) does not change
the parse. -/
theorem safe_money_clean_spec_witness :
    safe_money_chars ['1', 'z'] = safe_money_chars ['1'] :=
  safe_money_clean_spec.1 ['1'] [] 'z' (by decide)

theorem goodNum_no_digit (l : List Char) (h : l.all (fun c => !c.isDigit) = true) :
    goodNum l = false := by
  have hb : ∀ m : List Char, m.all (fun c => !c.isDigit) = true → goodBody m = false := by
    intro m hm
    have hany : m.any (fun c => c.isDigit) = false := by
      rw [List.any_eq_false]
      intro x hx
      have hx2 := List.all_eq_true.mp hm x hx
      simp at hx2
      simp [hx2]
    unfold goodBody
    simp [hany]
  rcases l with _ | ⟨c, rest⟩
  · rfl
  · show (if c = '-' then goodBody rest else goodBody (c :: rest)) = false
    by_cases hc : c = '-'
    · rw [if_pos hc]
      apply hb
      simp only [List.all_cons, Bool.and_eq_true] at h
      exact List.all_eq_true.mpr (fun x hx => List.all_eq_true.mp h.2 x hx)
    · rw [if_neg hc]
      exact hb _ h

/-- Claim C8: `_safe_money` is a total function returning an absent value —
never raising — and it returns `none` exactly when the cleaned string is not a
decimal literal; in particular it returns `none` whenever the cleaned string
is empty or contains no digit. -/
theorem safe_money_none_spec (s : String) :
    ((_safe_money s).isSome = goodNum (cleanChars s.data))
    ∧ (cleanChars s.data = [] → _safe_money s = none)
    ∧ ((cleanChars s.data).all (fun c => !c.isDigit) = true → _safe_money s = none) := by
  refine ⟨pyFloatQ_isSome (cleanChars s.data), ?_, ?_⟩
  · intro h
    unfold _safe_money safe_money_chars
    rw [h]
    rfl
  · intro h
    have hiso := pyFloatQ_isSome (cleanChars s.data)
    rw [goodNum_no_digit _ h] at hiso
    cases hcase : _safe_money s
    · rfl
    · exfalso
      unfold _safe_money safe_money_chars at hcase
      rw [hcase] at hiso
      simp at hiso

/-- Claim C8 witness: the none-conditions theorem applied at `"abc"`, whose
cleaned form is empty. -/
theorem safe_money_none_spec_witness : _safe_money "abc" = none :=
  (safe_money_none_spec "abc").2.1 (by decide)

/-- Model of the entity-strategy item construction in `_docai_parse_line_items`
(process_invoices.py, lines 291-308) for one line-item entity.  Every `X or
default` is Python truthiness, so a resolved `0` falls back like `None`. -/
def entityLineItem (ent : Entity) : LineItem :=
  let desc0 := (_entity_child_text ent ["description", "item_description"]).getD
    (pyStrip ent.mention_text)
  let qty := pyOrQ (_entity_child_float ent ["quantity", "qty"]) 1
  let unit_price := pyOrQ (_entity_child_money ent ["unit_price", "unit_price_amount"]) 0
  let net := pyOrQ (_entity_child_money ent ["net_amount", "subtotal_amount"]) (qty * unit_price)
  let vat := pyOrQ (_entity_child_money ent ["tax_amount"]) 0
  let gross := pyOrQ (_entity_child_money ent ["amount", "total_amount"]) (net + vat)
  ⟨if desc0 = "" then "(line item)" else desc0, qty, unit_price, net,
    _guess_vat_rate net (some vat), vat, gross⟩

/-- Claim C10: in the entity strategy the documented defaults fire not only on
absent fields but also on fields resolving to `0`: quantity `0` yields `1`,
net `0` yields `quantity * unit_price`, gross `0` yields `net + vat` — the
same results as for absence, so a parsed zero is indistinguishable from an
absent field at the extractor's output. -/
theorem entity_zero_defaults_spec (ent : Entity) :
    ((_entity_child_float ent ["quantity", "qty"] = some 0
        ∨ _entity_child_float ent ["quantity", "qty"] = none) →
      (entityLineItem ent).quantity = 1)
    ∧ ((_entity_child_money ent ["net_amount", "subtotal_amount"] = some 0
        ∨ _entity_child_money ent ["net_amount", "subtotal_amount"] = none) →
      (entityLineItem ent).net = (entityLineItem ent).quantity * (entityLineItem ent).unit_price)
    ∧ ((_entity_child_money ent ["amount", "total_amount"] = some 0
        ∨ _entity_child_money ent ["amount", "total_amount"] = none) →
      (entityLineItem ent).gross = (entityLineItem ent).net + (entityLineItem ent).vat) := by
  refine ⟨?_, ?_, ?_⟩ <;> (rintro (h | h) <;> simp [entityLineItem, h, pyOrQ])

/-- A line-item entity whose quantity child parses to `0`. -/
def entQtyZero : Entity :=
  ⟨"line_item", "Thing", ⟨"", none⟩, [⟨"quantity", "0", ⟨"", none⟩⟩]⟩

/-- Claim C10 witness: the defaults theorem applied to an entity whose
quantity child parses to `0`; the produced item has quantity `1`. -/
theorem entity_zero_defaults_spec_witness :
    (entityLineItem entQtyZero).quantity = 1 :=
  (entity_zero_defaults_spec entQtyZero).1 (Or.inl (by
    norm_num +decide [_entity_child_float, _entity_child_text, childTextAux, entQtyZero,
      pyStrip, firstNonempty, safe_money_chars, cleanChars, pyFloatQ, parseUnsigned,
      goodBody, digitsToNat, digitVal_0]))

/-- The outcome of one table body row in the fallback table strategy. -/
inductive RowOutcome where
  | skipped
  | raised
  | item (description : String) (quantity unit_price net vat_rate : ℚ)
      (vat : Option ℚ) (gross : Option ℚ)
deriving DecidableEq

/-- Model of one body-row iteration of the table strategy in
`_docai_parse_line_items` (process_invoices.py, lines 321-339).  Line 322
builds `texts` with an inner comprehension that iterates `row.cells` again,
shadowing the outer `cell`, so every entry of `texts` is the concatenation of
the text of ALL cells of the row.  `raised` marks the `net + vat` type error
reachable when the vat column parses to `None` (the per-table `try` then drops
the remaining rows of that table). -/
def tableRowOutcome (cellTexts : List String) : RowOutcome :=
  let texts := cellTexts.map (fun _ => String.join cellTexts)
  match texts with
  | [] => RowOutcome.skipped
  | t0 :: rest =>
    let desc0 := pyStrip t0
    let desc := if desc0 = "" then "(line item)" else desc0
    let nums := rest.map (fun t => _safe_money t)
    if nums.all (fun v => v.isNone) then RowOutcome.skipped
    else
      let qty := pyOrQ (nums[0]?).join 1
      let unit_price := pyOrQ (nums[1]?).join 0
      let net := pyOrQ (nums[2]?).join (qty * unit_price)
      let vat : Option ℚ := if 3 < nums.length then (nums[3]?).join else some 0
      if 4 < nums.length then
        RowOutcome.item desc qty unit_price net (_guess_vat_rate net vat) vat ((nums[4]?).join)
      else
        match vat with
        | some v =>
          RowOutcome.item desc qty unit_price net (_guess_vat_rate net (some v)) (some v)
            (some (net + v))
        | none => RowOutcome.raised

/-- Claim C3 (code bug): on the body row with cells `["Item", "2", "10"]` the
code produces description `"Item210"` and quantity `210` — every candidate
text is the concatenation of all cells of the row, because the inner
comprehension on line 322 shadows `cell` — instead of description `"Item"`
with the numeric cells mapped to quantity and unit price as the claim (and
the code's own comment) describes. -/
theorem table_row_shadow_bug :
    tableRowOutcome ["Item", "2", "10"] =
      RowOutcome.item "Item210" 210 210 44100 0 (some 0) (some 44100)
    ∧ "Item210" ≠ "Item" ∧ (210 : ℚ) ≠ 2 := by
  have hjoin : String.join ["Item", "2", "10"] = "Item210" := by decide
  have hstrip : pyStrip "Item210" = "Item210" := by decide
  have hmoney : _safe_money "Item210" = some 210 := by
    norm_num +decide [_safe_money, safe_money_chars, cleanChars, pyFloatQ, parseUnsigned,
      goodBody, digitsToNat, digitVal_2, digitVal_1, digitVal_0]
  refine ⟨?_, by decide, by norm_num⟩
  norm_num +decide [tableRowOutcome, hjoin, hstrip, hmoney, pyOrQ, _guess_vat_rate, pyAbs,
    round2, roundHalfEven]

/-- A totals-mismatch message of the sheet checker, keyed by invoice number. -/
inductive SheetMismatch where
  | net (inv : String) (computed declared : ℚ)
  | vat (inv : String) (computed declared : ℚ)
  | gross (inv : String) (computed declared : ℚ)
deriving DecidableEq

/-- The invoice number a mismatch message refers to. -/
def SheetMismatch.inv : SheetMismatch → String
  | SheetMismatch.net i _ _ => i
  | SheetMismatch.vat i _ _ => i
  | SheetMismatch.gross i _ _ => i

/-- Net of one line-item row: `as_float(row[6]) if len(row) > 6 else 0.0`. -/
def rowNet (row : List String) : Option ℚ :=
  match row[6]? with
  | some c => as_float c
  | none => some 0

/-- Vat of one line-item row: `as_float(row[8]) if len(row) > 8 else None`. -/
def rowVat (row : List String) : Option ℚ := (row[8]?).bind as_float

/-- Gross of one line-item row: `as_float(row[9]) if len(row) > 9 else None`. -/
def rowGross (row : List String) : Option ℚ := (row[9]?).bind as_float

/-- The key under which a line-item row is grouped: its first cell, provided
the row is nonempty and at least one of net/vat/gross is added — only then
does `sumy[inv]` spring into existence in the `defaultdict`
(validate_google_sheet.py, lines 40-49). -/
def pozKey (row : List String) : Option String :=
  match row with
  | [] => none
  | h :: _ =>
    if (rowNet row).isSome || (rowVat row).isSome || (rowGross row).isSome then some h
    else none

/-- Whether `inv in sumy` holds after grouping the line-item rows. -/
def inSumy (poz : List (List String)) (inv : String) : Bool :=
  poz.any (fun row => pozKey row == some inv)

/-- The grouped net sum for one invoice number. -/
def sumNet (poz : List (List String)) (inv : String) : ℚ :=
  (poz.map (fun row =>
    match row with
    | [] => 0
    | h :: _ => if h = inv then (rowNet row).getD 0 else 0)).sum

/-- The grouped vat sum for one invoice number. -/
def sumVat (poz : List (List String)) (inv : String) : ℚ :=
  (poz.map (fun row =>
    match row with
    | [] => 0
    | h :: _ => if h = inv then (rowVat row).getD 0 else 0)).sum

/-- The grouped gross sum for one invoice number. -/
def sumGross (poz : List (List String)) (inv : String) : ℚ :=
  (poz.map (fun row =>
    match row with
    | [] => 0
    | h :: _ => if h = inv then (rowGross row).getD 0 else 0)).sum

/-- The fixed tolerance of the sheet checker, `0.02`. -/
def sheetTol : ℚ := 1/50

/-- Mismatch messages contributed by one header row (validate_google_sheet.py,
lines 52-64): none when the row has fewer than 9 cells or its invoice number
was never grouped; otherwise each of net/vat/gross contributes one message
when its declared total parses and the grouped sum differs by more than the
tolerance. -/
def rowMismatches (poz : List (List String)) (row : List String) : List SheetMismatch :=
  if row.length < 9 then []
  else
    match row with
    | [] => []
    | h :: _ =>
      if inSumy poz h then
        (match as_float ((row[6]?).getD "") with
          | some t => if sheetTol < pyAbs (sumNet poz h - t)
              then [SheetMismatch.net h (sumNet poz h) t] else []
          | none => [])
        ++ (match as_float ((row[7]?).getD "") with
          | some t => if sheetTol < pyAbs (sumVat poz h - t)
              then [SheetMismatch.vat h (sumVat poz h) t] else []
          | none => [])
        ++ (match as_float ((row[8]?).getD "") with
          | some t => if sheetTol < pyAbs (sumGross poz h - t)
              then [SheetMismatch.gross h (sumGross poz h) t] else []
          | none => [])
      else []

/-- The `mismatch` list of `main`. -/
def mismatchList (dane poz : List (List String)) : List SheetMismatch :=
  dane.flatMap (rowMismatches poz)

/-- The required header columns with their fixed offsets (`REQUIRED_DANE_COLS`). -/
def requiredCols : List (String × ℕ) :=
  [("invoice_id", 0), ("supplier_name", 1), ("supplier_tax_id", 2), ("issue_date", 3),
   ("currency", 5), ("total_net", 6), ("total_vat", 7), ("total_gross", 8)]

/-- Missing-field messages of one header row at sheet row number `r`: one
`(r, column)` pair per required column that is out of range or empty. -/
def missingFor (r : ℕ) (row : List String) : List (ℕ × String) :=
  requiredCols.filterMap (fun p => if (row[p.2]?).getD "" = "" then some (r, p.1) else none)

/-- The `missing` list of `main`; header rows are numbered from 2, matching
`enumerate(dane, start=2)`. -/
def missingList (dane : List (List String)) : List (ℕ × String) :=
  (dane.enum.map (fun p => missingFor (p.1 + 2) p.2)).flatten

/-- The process exit code of `main` (validate_google_sheet.py, lines 66-74):
`1` when either list is nonempty, else `0`. -/
def sheetExitCode (dane poz : List (List String)) : ℕ :=
  if missingList dane = [] ∧ mismatchList dane poz = [] then 0 else 1

/-- Claim C9: every totals-mismatch message of the sheet checker refers to an
invoice number with at least one grouped line-item entry — a header row whose
invoice number has no grouped entry contributes no mismatch message, only
possibly missing-field messages — and the run succeeds iff both the
missing-field list and the mismatch list are empty. -/
theorem sheet_checker_spec :
    (∀ (dane poz : List (List String)) (m : SheetMismatch),
      m ∈ mismatchList dane poz → inSumy poz m.inv = true)
    ∧ (∀ dane poz : List (List String),
        sheetExitCode dane poz = 0 ↔ missingList dane = [] ∧ mismatchList dane poz = []) := by
  constructor
  · intro dane poz m hm
    rw [mismatchList, List.mem_flatMap] at hm
    obtain ⟨row, hrow, hmem⟩ := hm
    unfold rowMismatches at hmem
    split at hmem
    · simp at hmem
    · split at hmem
      · simp at hmem
      · split at hmem
        next hin =>
          simp only [List.mem_append] at hmem
          rcases hmem with (hmem | hmem) | hmem <;>
            · split at hmem
              all_goals simp at hmem
              all_goals (obtain ⟨-, rfl⟩ := hmem; exact hin)
        next hin => simp at hmem
  · intro dane poz
    unfold sheetExitCode
    split <;> simp_all

/-- Header range with one complete row whose vat total is wrong. -/
def daneEx : List (List String) := [["INV-1", "s", "t", "d", "x", "PLN", "50", "999", "60"]]

/-- Line-item range with one row keyed `INV-1` (net 50, vat 11, gross 60). -/
def pozEx : List (List String) := [["INV-1", "", "", "", "", "", "50", "", "11", "60"]]

/-- Claim C9 witness: the theorem applied to a concrete vat-mismatch message
(its invoice is grouped) and to the empty ranges (exit code 0). -/
theorem sheet_checker_spec_witness :
    inSumy pozEx "INV-1" = true ∧ sheetExitCode [] [] = 0 := by
  have h50 : as_float "50" = some 50 := by
    norm_num +decide [as_float, pyFloatQ, parseUnsigned, goodBody, digitsToNat, digitVal_5,
      digitVal_0]
  have h999 : as_float "999" = some 999 := by
    norm_num +decide [as_float, pyFloatQ, parseUnsigned, goodBody, digitsToNat, digitVal_9]
  have h60 : as_float "60" = some 60 := by
    norm_num +decide [as_float, pyFloatQ, parseUnsigned, goodBody, digitsToNat, digitVal_6,
      digitVal_0]
  have h11 : as_float "11" = some 11 := by
    norm_num +decide [as_float, pyFloatQ, parseUnsigned, goodBody, digitsToNat, digitVal_1]
  have hemp : as_float "" = none := by decide
  constructor
  · apply sheet_checker_spec.1 daneEx pozEx (SheetMismatch.vat "INV-1" 11 999)
    norm_num +decide [mismatchList, daneEx, pozEx, rowMismatches, inSumy, pozKey, rowNet,
      rowVat, rowGross, sumNet, sumVat, sumGross, sheetTol, pyAbs, h50, h999, h60, h11, hemp]
  · exact (sheet_checker_spec.2 [] []).mpr ⟨rfl, rfl⟩
